import Mathlib

/-!
Verification of the controller logic of the ecoflow-authentication plugin.

The TypeScript sources are shallowly embedded as Lean functions.  External
effects (the filesystem, the process environment, the request query string,
the third-party JWT / OAuth / JWKS libraries) are passed in explicitly as
function-valued parameters, so every controller is a pure function from its
context and those oracles to an outcome record describing the payload
writes, the response status and whether the continuation `next()` was
invoked.
-/

namespace EcoflowAuth

/-- The four JWT algorithms accepted by the module
(`"HS256" | "HS384" | "RS256" | "RS384"` in the TypeScript sources). -/
inductive Alg
  | HS256
  | HS384
  | RS256
  | RS384
deriving DecidableEq, Repr

/-- Key material produced by the key resolver: a JavaScript string, a file
Buffer (its contents modelled as a string), or the JavaScript value
`undefined` (which arises when `process.env.ECOFLOW_SYS_TOKEN_SALT` is unset
and the code casts it with `as string`). -/
inductive KeyMaterial
  | str (s : String)
  | buf (contents : String)
  | undefVal
deriving DecidableEq, Repr

/-- The process environment: `process.env` as a partial map from variable
names to values (`none` models an unset variable, i.e. `undefined`). -/
def EnvMap : Type := String → Option String

/-- The filesystem as seen through `fs-extra`: existence of a path, whether
`stat(path).isFile()` holds, and the contents `readFile` would return.
`pathExists` models `fse.exists`. -/
structure FileSys where
  pathExists : String → Bool
  isFile : String → Bool
  readFile : String → String

/-- The algorithm-downgrade ternary of `fetchSecretORprivateKey`
(src/unnamed/part_000 line 58):
`algorithm === "RS256" ? "HS256" : algorithm === "RS384" ? "HS384" : "HS256"`. -/
def downgradeAlg (algorithm : Alg) : Alg :=
  if algorithm = .RS256 then .HS256
  else if algorithm = .RS384 then .HS384
  else .HS256

/-- The fallback shared secret: `process.env.ECOFLOW_SYS_TOKEN_SALT as string`
(src/unnamed/part_000 line 57).  An unset variable stays the JavaScript
value `undefined`. -/
def saltFallback (env : EnvMap) : KeyMaterial :=
  match env "ECOFLOW_SYS_TOKEN_SALT" with
  | some s => .str s
  | none => .undefVal

/-- Embedding of `fetchSecretORprivateKey` (src/unnamed/part_000 lines
26-60).  Symmetric algorithms return the key unchanged; otherwise the key is
treated as a path: if it names an existing regular file its contents are
returned as a Buffer with the algorithm unchanged, else the environment
fallback secret is returned with the downgraded symmetric algorithm. -/
def fetchSecretORprivateKey (fs : FileSys) (env : EnvMap)
    (algorithm : Alg) (key : String) : KeyMaterial × Alg :=
  if algorithm = .HS256 ∨ algorithm = .HS384 then (.str key, algorithm)
  else
    let stats := fs.pathExists key && fs.isFile key
    if stats then (.buf (fs.readFile key), algorithm)
    else (saltFallback env, downgradeAlg algorithm)

/-- Result of `fetchJWKPublicKey` (src/src/helpers/fetchJWKPublicKey.ts):
either a plain string (the empty-string sentinel on an invalid URL) or a
key-provider closure over a `jwks-rsa` client configured with the JWKS URI,
a 50-entry cache bound and a one-hour cache age. -/
inductive JWKFetchResult
  | str (s : String)
  | provider (jwksUri : String) (cacheMaxEntries : Nat) (cacheMaxAgeMs : Nat)
deriving DecidableEq, Repr

/-- Embedding of `stringIsAValidUrl` (src/unnamed/part_000 lines 8-15): the
WHATWG `URL` constructor is external, so its success on a given string is an
oracle `urlCtorSucceeds`; the helper returns true exactly when construction
does not throw. -/
def stringIsAValidUrl (urlCtorSucceeds : String → Bool) (url : String) : Bool :=
  urlCtorSucceeds url

/-- Embedding of `fetchJWKPublicKey` (src/src/helpers/fetchJWKPublicKey.ts
lines 9-48): invalid URL yields the empty-string sentinel, otherwise a
key-provider function over a caching client (50 entries, 1 hour). -/
def fetchJWKPublicKey (urlCtorSucceeds : String → Bool) (url : String) :
    JWKFetchResult :=
  if ¬ stringIsAValidUrl urlCtorSucceeds url then .str ""
  else .provider url 50 (60 * 60 * 1000)

/-- A concrete filesystem with no files, for witnesses. -/
def fsEmpty : FileSys :=
  { pathExists := fun _ => false, isFile := fun _ => false
    readFile := fun _ => "" }

/-- A concrete filesystem containing one regular file, for witnesses. -/
def fsOneFile : FileSys :=
  { pathExists := fun p => p = "/keys/priv.pem"
    isFile := fun p => p = "/keys/priv.pem"
    readFile := fun _ => "PEMDATA" }

/-- A concrete environment holding only the fallback salt, for witnesses. -/
def envSaltOnly : EnvMap :=
  fun k => if k = "ECOFLOW_SYS_TOKEN_SALT" then some "s4lt" else none

/-- Splitting a character list at every occurrence of a separator, keeping
empty segments, as JavaScript `String.prototype.split` does on a
single-character separator. -/
def splitOnChar (c : Char) : List Char → List (List Char)
  | [] => [[]]
  | x :: xs =>
    let r := splitOnChar c xs
    if x = c then [] :: r
    else
      match r with
      | [] => [[x]]
      | y :: ys => (x :: y) :: ys

/-- JavaScript `s.split(" ")`: split at every space, keeping empty
segments (so `"a  b"` gives `["a", "", "b"]` and `""` gives `[""]`). -/
def jsSplitSpace (s : String) : List String :=
  (splitOnChar ' ' s.toList).map fun cs => String.mk cs

/-- The value the token verifier controller passes to `JWT.verify` as the
secret: a plain string, the JavaScript value `undefined` (unset environment
variable on the static-secret branch), or the key-provider closure returned
by `fetchJWKPublicKey`. -/
inductive SecretVal
  | undefVal
  | str (s : String)
  | provider (jwksUri : String) (cacheMaxEntries : Nat) (cacheMaxAgeMs : Nat)
deriving DecidableEq, Repr

/-- The configurable inputs of the token verifier step
(src/src/controllers/getUserDetails.ts lines 122-128). -/
structure VerifierInputs where
  responseKey : String
  algorithm : Alg
  secretORprivateKeySelector : String
  secretORpublicKey : String
  fromEnvironmentVariable : Bool

/-- The secret resolution of the token verifier
(src/src/controllers/getUserDetails.ts lines 174-183): the static-secret
branch reads the literal or the named environment variable; otherwise the
URL (literal or environment-derived, `undefined` when the variable is
unset, on which the URL constructor throws) is passed to
`fetchJWKPublicKey`. -/
def resolveVerifierSecret (env : EnvMap) (urlCtorSucceeds : String → Bool)
    (i : VerifierInputs) : SecretVal :=
  if i.secretORprivateKeySelector = "secret" then
    if i.fromEnvironmentVariable then
      match env i.secretORpublicKey with
      | some s => .str s
      | none => .undefVal
    else .str i.secretORpublicKey
  else
    match
      (if i.fromEnvironmentVariable then env i.secretORpublicKey
       else some i.secretORpublicKey) with
    | none => .str ""
    | some u =>
      match fetchJWKPublicKey urlCtorSucceeds u with
      | .str s => .str s
      | .provider a b c => .provider a b c

/-- An abstract JWT: the algorithm of its header, the key material its
signature verifies against, and its decoded claims (kept abstract as a
string).  Together with a decoding oracle this models the tokens the
external `jsonwebtoken` library can successfully parse. -/
structure Token where
  alg : Alg
  key : SecretVal
  claims : String
deriving DecidableEq, Repr

/-- Model of the external `jsonwebtoken` `verify` call with an
`algorithms` allow-list: an undecodable token is malformed, a token whose
header algorithm is outside the allow-list fails with "invalid algorithm",
a key mismatch fails with "invalid signature", and otherwise the decoded
claims are returned. -/
def JWTverify (decode : String → Option Token) (raw : String)
    (secret : SecretVal) (algorithms : List Alg) : Except String String :=
  match decode raw with
  | none => .error "jwt malformed"
  | some t =>
    if t.alg ∉ algorithms then .error "invalid algorithm"
    else if secret ≠ t.key then .error "invalid signature"
    else .ok t.claims

/-- The context of one token-verifier invocation: the current payload map,
the incoming `request.headers.authorization`, and the current response
status. -/
structure AuthCtx where
  payload : String → Option String
  authorization : Option String
  status : Option Nat

/-- Observable outcome of one token-verifier invocation. -/
structure AuthOutcome where
  payload : String → Option String
  status : Option Nat
  nextCalled : Bool

/-- Updating the shared payload map at one key. -/
def updateMap (m : String → Option α) (k : String) (v : α) :
    String → Option α :=
  fun x => if x = k then some v else m x

/-- The invalid-authorization outcome of the token verifier
(src/src/controllers/getUserDetails.ts lines 142-144 and 162-164). -/
def invalidAuthOutcome (i : VerifierInputs) (ctx : AuthCtx) : AuthOutcome :=
  { payload := updateMap ctx.payload i.responseKey "Invalid authorization"
    status := some 401
    nextCalled := false }

/-- Embedding of the token verifier `functionController`
(src/src/controllers/getUserDetails.ts lines 100-237).  Undefined inputs
return silently; a missing or empty `Authorization` header, a header with
no second space-separated segment, or an empty second segment yield the
invalid-authorization outcome; otherwise the second segment is verified
with the resolved secret restricted to the single configured algorithm, a
failure writing the error message with status 401 and a success writing
the decoded claims and calling the continuation. -/
def authenticateTokenController (env : EnvMap)
    (urlCtorSucceeds : String → Bool) (decode : String → Option Token)
    (inputs : Option VerifierInputs) (ctx : AuthCtx) : AuthOutcome :=
  match inputs with
  | none =>
    { payload := ctx.payload, status := ctx.status, nextCalled := false }
  | some i =>
    match ctx.authorization with
    | none => invalidAuthOutcome i ctx
    | some auth =>
      if auth = "" then invalidAuthOutcome i ctx
      else
        match (jsSplitSpace auth)[1]? with
        | none => invalidAuthOutcome i ctx
        | some rawToken =>
          if rawToken = "" then invalidAuthOutcome i ctx
          else
            match
              JWTverify decode rawToken
                (resolveVerifierSecret env urlCtorSucceeds i)
                [i.algorithm] with
            | .error e =>
              { payload := updateMap ctx.payload i.responseKey e
                status := some 401
                nextCalled := false }
            | .ok result =>
              { payload := updateMap ctx.payload i.responseKey result
                status := ctx.status
                nextCalled := true }

/-- A concrete verifier-inputs record, for witnesses. -/
def viDemo : VerifierInputs :=
  { responseKey := "user", algorithm := .HS256
    secretORprivateKeySelector := "secret", secretORpublicKey := "shh"
    fromEnvironmentVariable := false }

/-- A concrete decoding oracle knowing two tokens, one under HS256 for the
secret "shh" and one under HS384 for the same secret, for witnesses. -/
def decodeDemo : String → Option Token := fun s =>
  if s = "tok256" then some { alg := .HS256, key := .str "shh", claims := "claims-ok" }
  else if s = "tok384" then some { alg := .HS384, key := .str "shh", claims := "claims-other" }
  else none

/-- An empty payload map, for witnesses. -/
def payloadEmpty : String → Option String := fun _ => none

/-- A URL-constructor oracle that always fails, for witnesses. -/
def urlNever : String → Bool := fun _ => false

/-- JavaScript truthiness of a possibly-undefined string: `undefined` and
the empty string are falsy, every other string is truthy. -/
def jsTruthyStr (v : Option String) : Bool :=
  match v with
  | none => false
  | some s => s ≠ ""

/-- lodash `_.isEmpty` on a possibly-undefined string: true for `undefined`
and for the empty string. -/
def lodashIsEmptyStr (v : Option String) : Bool :=
  match v with
  | none => true
  | some s => s = ""

/-- lodash `_.isElement` checks whether a value is a DOM element; on the
strings and `undefined` values flowing through this server-side module it
is always false. -/
def lodashIsElement (_v : Option String) : Bool := false

/-- A JavaScript value held in the pipeline payload on the signer side:
a string or an object (objects kept abstract as a string description;
`obj "emptyObject"` stands for the literal `\x7b\x7d`). -/
inductive JsVal
  | str (s : String)
  | obj (o : String)
deriving DecidableEq, Repr

/-- JavaScript falsiness of a payload value: among the values modelled
here only the empty string is falsy. -/
def jsValFalsy : JsVal → Bool
  | .str s => s = ""
  | .obj _ => false

/-- JavaScript `a || b` applied to a possibly-absent payload value, as in
`payload[payloadKey] || \x7b\x7d`. -/
def jsOrDefault (v : Option JsVal) (d : JsVal) : JsVal :=
  match v with
  | none => d
  | some x => if jsValFalsy x then d else x

/-- The configurable inputs of the token signer step
(src/src/controllers/signJWTController.ts lines 32-39). -/
structure SignInputs where
  payloadKey : String
  responseKey : String
  expiresIn : String
  algorithm : Alg
  secretORprivateKey : String
  secretORprivateKeyFromEnvironment : Bool

/-- The key reference the signer passes to `fetchSecretORprivateKey`
(src/src/controllers/signJWTController.ts lines 58-60):
`secretORprivateKeyFromEnvironment ? process.env[secretORprivateKey] || ""
: secretORprivateKey`. -/
def signKeyRef (env : EnvMap) (i : SignInputs) : String :=
  if i.secretORprivateKeyFromEnvironment then
    (env i.secretORprivateKey).getD ""
  else i.secretORprivateKey

/-- Observable outcome of one token-signer invocation. -/
structure SignOutcome where
  payload : String → Option JsVal
  nextCalled : Bool

/-- Embedding of the token signer `functionController`
(src/src/controllers/signJWTController.ts lines 10-86).  The external
`JWT.sign` is an oracle from the JWT payload, the resolved key material,
the expiry and the resolved algorithm to the token string.  Undefined
inputs return silently; otherwise the key is resolved, the token signed,
written to the response key, and the continuation invoked — there is no
error branch. -/
def signJWTController (fs : FileSys) (env : EnvMap)
    (jwtSign : JsVal → KeyMaterial → String → Alg → String)
    (inputs : Option SignInputs) (payload : String → Option JsVal) :
    SignOutcome :=
  match inputs with
  | none => { payload := payload, nextCalled := false }
  | some i =>
    let jwtPayload := jsOrDefault (payload i.payloadKey) (.obj "emptyObject")
    let sk := fetchSecretORprivateKey fs env i.algorithm (signKeyRef env i)
    let token := jwtSign jwtPayload sk.1 i.expiresIn sk.2
    { payload := updateMap payload i.responseKey (.str token)
      nextCalled := true }

/-- The in-memory credentials of the OAuth client: either the cleared empty
object or a `refresh_token` slot holding the caller-supplied value
(possibly `undefined`). -/
inductive Creds
  | empty
  | set (refreshTokenSlot : Option String)
deriving DecidableEq, Repr

/-- Result of the external `OAuthClient.getAccessToken()` call: the library
threw, or returned a response whose `token` field may be `undefined`. -/
inductive GetTokenResult
  | throws (err : String)
  | ok (token : Option String)
deriving DecidableEq, Repr

/-- The structured values `getUserDetails` writes into `payload.msg`. -/
inductive UDMsg
  | missingInputs
  | missingClient (clientUndefined : Bool)
  | missingConfigManager
  | missingConfig
  | missingOAuthClient
  | success (user : String)
  | failedUserDetails (rawError : String)
deriving DecidableEq, Repr

/-- A named OAuth client configuration as stored by the host configuration
manager: whether `config.configs` holds a non-empty OAuth client, and that
credentials that client holds before the call. -/
structure UDConfig where
  hasOAuthClient : Bool
  initialCreds : Creds

/-- The external collaborators of `getUserDetails`: the request query, the
host configuration manager, and the OAuth/userinfo network calls. -/
structure UDWorld where
  query : String → Option String
  hasConfigManager : Bool
  config : String → Option UDConfig
  getAccessToken : Option String → GetTokenResult
  fetchUserInfo : String → Except String String

/-- The configurable inputs of the user-details step
(src/src/controllers/getUserDetails.ts line 18). -/
structure UDInputs where
  client : Option String
  refreshToken : Option String
  passByQuery : Bool
  queryKey : Option String

/-- Observable outcome of one `getUserDetails` invocation: the value
written to `payload.msg` (`none` when untouched), the final credentials of
the resolved OAuth client (`none` when no client was resolved), and
whether the continuation ran. -/
structure UDOutcome where
  msg : Option UDMsg
  creds : Option Creds
  nextCalled : Bool

/-- The refresh token `getUserDetails` uses
(src/src/controllers/getUserDetails.ts lines 31-35):
`passByQuery ? (queryKey ? request.query[queryKey] : request.query["token"])
: refreshToken`. -/
def udUserRefreshToken (w : UDWorld) (i : UDInputs) : Option String :=
  if i.passByQuery then
    if jsTruthyStr i.queryKey then w.query (i.queryKey.getD "")
    else w.query "token"
  else i.refreshToken

/-- Embedding of `getUserDetails`
(src/src/controllers/getUserDetails.ts lines 5-91).  After the input,
client, configuration-manager, configuration and OAuth-client guards, the
controller stores the refresh token in the credentials of the client, obtains
an access token, fetches the user info, and only on full success clears
the credentials and calls the continuation; the catch branch writes the
failure message and returns with the credentials still set. -/
def getUserDetails (w : UDWorld) (inputs : Option UDInputs) : UDOutcome :=
  match inputs with
  | none => { msg := some .missingInputs, creds := none, nextCalled := false }
  | some i =>
    if ¬ jsTruthyStr i.client then
      { msg := some (.missingClient (i.client = none)), creds := none
        nextCalled := false }
    else
      let userRefreshToken := udUserRefreshToken w i
      if ¬ w.hasConfigManager then
        { msg := some .missingConfigManager, creds := none
          nextCalled := false }
      else
        match w.config (i.client.getD "") with
        | none =>
          { msg := some .missingConfig, creds := none, nextCalled := false }
        | some cfg =>
          if ¬ cfg.hasOAuthClient then
            { msg := some .missingOAuthClient, creds := none
              nextCalled := false }
          else
            match w.getAccessToken userRefreshToken with
            | .throws err =>
              { msg := some (.failedUserDetails err)
                creds := some (.set userRefreshToken), nextCalled := false }
            | .ok none =>
              { msg := some (.failedUserDetails "Failed to get access token.")
                creds := some (.set userRefreshToken), nextCalled := false }
            | .ok (some tk) =>
              match w.fetchUserInfo tk with
              | .error err =>
                { msg := some (.failedUserDetails err)
                  creds := some (.set userRefreshToken), nextCalled := false }
              | .ok userInfo =>
                { msg := some (.success userInfo), creds := some .empty
                  nextCalled := true }

/-- The configurable inputs of the Google auth-URL step
(src/unnamed/part_001 lines 26-33 and 111). -/
structure GAuthInputs where
  clientId : Option String
  clientIdFromEnv : Bool
  clientSecret : Option String
  clientSecretFromEnv : Bool
  redirectUri : Option String
  redirectUriFromEnv : Bool
  access_type : Option String
  prompt : Option String
  scope : Option String
  state : Option String
  login_hint : Option String

/-- Optional environment resolution of one client credential, e.g.
`clientIdFromEnv ? process.env[clientId] : clientId`
(src/unnamed/part_001 lines 42-63). -/
def resolveCred (env : EnvMap) (fromEnv : Bool) (v : Option String) :
    Option String :=
  if fromEnv then v.bind env else v

/-- The arguments the external `generateAuthUrl` call receives, standing in
for the authorization URL it builds. -/
structure AuthUrlArgs where
  clientId : String
  clientSecret : String
  redirectUri : String
  access_type : String
  prompt : String
  scope : Option String
  state : Option String
  login_hint : Option String
deriving DecidableEq, Repr

/-- The structured values `generateGoogleAuthUrl` writes into
`payload.msg`: the missing-credentials error with its per-field flags, the
missing-parameters error with its per-field flags, or the authorization
URL. -/
inductive GAuthMsg
  | missingCredentials (statusCode : Nat)
      (clientIdFlag clientSecretFlag redirectUriFlag : Bool)
  | missingParameters (statusCode : Nat) (accessTypeFlag promptFlag : Bool)
  | authURL (args : AuthUrlArgs)
deriving DecidableEq, Repr

/-- Observable outcome of one `generateGoogleAuthUrl` invocation. -/
structure GAuthOutcome where
  msg : Option GAuthMsg
  nextCalled : Bool
deriving DecidableEq, Repr

/-- Embedding of `generateGoogleAuthUrl` (src/unnamed/part_001 lines
4-160).  The credential guard mirrors the source exactly: the overall test
uses JavaScript falsiness plus `_.isElement` on the client id and
`_.isEmpty` on the secret and redirect URI, and the per-field `missing`
flags are computed by `_.isElement` for `clientId` and `clientSecret` and
by `_.isEmpty` for `redirectUri` (lines 72-91). -/
def generateGoogleAuthUrl (env : EnvMap) (inputs : Option GAuthInputs) :
    GAuthOutcome :=
  match inputs with
  | none => { msg := none, nextCalled := false }
  | some i =>
    let oAuthClientID := resolveCred env i.clientIdFromEnv i.clientId
    let oAuthClientSecret := resolveCred env i.clientSecretFromEnv i.clientSecret
    let oAuthRedirectUri := resolveCred env i.redirectUriFromEnv i.redirectUri
    if ¬ jsTruthyStr oAuthClientID ∨ ¬ jsTruthyStr oAuthClientSecret ∨
        ¬ jsTruthyStr oAuthRedirectUri ∨
        lodashIsElement oAuthClientID = true ∨
        lodashIsEmptyStr oAuthClientSecret = true ∨
        lodashIsEmptyStr oAuthRedirectUri = true then
      { msg := some (.missingCredentials 400
          (lodashIsElement oAuthClientID)
          (lodashIsElement oAuthClientSecret)
          (lodashIsEmptyStr oAuthRedirectUri))
        nextCalled := false }
    else
      if ¬ jsTruthyStr i.access_type ∨ ¬ jsTruthyStr i.prompt ∨
          lodashIsEmptyStr i.access_type = true ∨
          lodashIsEmptyStr i.prompt = true then
        { msg := some (.missingParameters 400
            (lodashIsEmptyStr i.access_type) (lodashIsEmptyStr i.prompt))
          nextCalled := false }
      else
        { msg := some (.authURL
            { clientId := oAuthClientID.getD ""
              clientSecret := oAuthClientSecret.getD ""
              redirectUri := oAuthRedirectUri.getD ""
              access_type := i.access_type.getD ""
              prompt := i.prompt.getD ""
              scope := i.scope, state := i.state
              login_hint := i.login_hint })
          nextCalled := true }

/-- The configurable inputs of the JWKS publisher step
(src/unnamed/part_001 line 196). -/
structure JWKSInputs where
  responseKey : String
  publicKey : Option String
  fromEnvironmentVariable : Bool

/-- The values the JWKS publisher writes into the payload: a message
string or a single-entry JWK array. -/
inductive JWKSVal
  | message (s : String)
  | jwks (keys : List String)
deriving DecidableEq, Repr

/-- The path resolution of the JWKS publisher (src/unnamed/part_001 lines
206-208): `fromEnvironmentVariable ? process.env[publicKey] : publicKey`;
`none` models the JavaScript value `undefined`. -/
def resolvedPublicKeyPath (env : EnvMap) (i : JWKSInputs) : Option String :=
  if i.fromEnvironmentVariable then i.publicKey.bind env else i.publicKey

/-- Observable outcome of one JWKS-publisher invocation. -/
structure JWKSOutcome where
  payload : String → Option JWKSVal
  status : Option Nat
  nextCalled : Bool

/-- Embedding of `jwtJWKSController` (src/unnamed/part_001 lines 174-272).
The external `pem2jwk` conversion is an oracle that may throw.  An
`undefined` resolved path makes the `fse.exists` call itself reject, which
the catch branch turns into "error occurred" with status 500; a resolved
path with no file yields "key not found" with status 404; otherwise the
file is read, converted, written as a one-entry array, and the
continuation invoked; a conversion failure also reaches the catch
branch. -/
def jwtJWKSController (env : EnvMap) (fs : FileSys)
    (pem2jwk : String → Except String String) (inputs : Option JWKSInputs)
    (payload : String → Option JWKSVal) (status0 : Option Nat) :
    JWKSOutcome :=
  match inputs with
  | none => { payload := payload, status := status0, nextCalled := false }
  | some i =>
    match resolvedPublicKeyPath env i with
    | none =>
      { payload := updateMap payload i.responseKey (.message "error occurred")
        status := some 500, nextCalled := false }
    | some p =>
      if ¬ fs.pathExists p then
        { payload := updateMap payload i.responseKey (.message "key not found")
          status := some 404, nextCalled := false }
      else
        match pem2jwk (fs.readFile p) with
        | .error _ =>
          { payload := updateMap payload i.responseKey
              (.message "error occurred")
            status := some 500, nextCalled := false }
        | .ok jwk =>
          { payload := updateMap payload i.responseKey (.jwks [jwk])
            status := status0, nextCalled := true }

/-- A world for the user-details witnesses in which the token refresh
always throws. -/
def udWorldFailingToken : UDWorld :=
  { query := fun _ => none
    hasConfigManager := true
    config := fun c =>
      if c = "google" then
        some { hasOAuthClient := true, initialCreds := .empty }
      else none
    getAccessToken := fun _ => .throws "invalid_grant"
    fetchUserInfo := fun _ => .error "unreachable" }

/-- A world for the user-details witnesses in which every call succeeds. -/
def udWorldHappy : UDWorld :=
  { query := fun _ => none
    hasConfigManager := true
    config := fun c =>
      if c = "google" then
        some { hasOAuthClient := true, initialCreds := .empty }
      else none
    getAccessToken := fun _ => .ok (some "at-99")
    fetchUserInfo := fun tk => if tk = "at-99" then .ok "jane-doe" else .error "bad" }

/-- Concrete user-details inputs, for witnesses. -/
def udInputsDemo : UDInputs :=
  { client := some "google", refreshToken := some "rt-1"
    passByQuery := false, queryKey := none }

/-- Concrete JWKS-publisher inputs, for witnesses. -/
def jwksInputsDemo : JWKSInputs :=
  { responseKey := "keys", publicKey := some "/keys/pub.pem"
    fromEnvironmentVariable := false }

/-- A concrete empty JWKS payload, for witnesses. -/
def jwksPayloadEmpty : String → Option JWKSVal := fun _ => none

/-- Concrete auth-URL inputs with an absent client id and the other
credentials present, exhibiting the wrong missing-flag. -/
def gaInputsNoClientId : GAuthInputs :=
  { clientId := none, clientIdFromEnv := false
    clientSecret := some "sec-1", clientSecretFromEnv := false
    redirectUri := some "https://cb.example/auth", redirectUriFromEnv := false
    access_type := some "offline", prompt := some "consent"
    scope := none, state := none, login_hint := none }

end EcoflowAuth

namespace EcoflowAuth

/-- C1: for every asymmetric algorithm (RS256 or RS384) and every key
reference that does not name an existing regular file, the key resolver
returns the fallback secret read from `ECOFLOW_SYS_TOKEN_SALT` together with
the downgraded symmetric algorithm, RS256 mapping to HS256 and RS384 to
HS384. -/
theorem fetchSecretORprivateKey_asymmetric_fallback
    (fs : FileSys) (env : EnvMap) (algorithm : Alg) (key : String)
    (halg : algorithm = .RS256 ∨ algorithm = .RS384)
    (hfile : ¬ (fs.pathExists key = true ∧ fs.isFile key = true)) :
    fetchSecretORprivateKey fs env algorithm key =
      (saltFallback env, downgradeAlg algorithm) ∧
    (algorithm = .RS256 → downgradeAlg algorithm = .HS256) ∧
    (algorithm = .RS384 → downgradeAlg algorithm = .HS384) := by
  have hstats : (fs.pathExists key && fs.isFile key) = false := by
    cases hpe : fs.pathExists key with
    | false => simp
    | true =>
      cases hif : fs.isFile key with
      | false => simp
      | true => exact absurd ⟨hpe, hif⟩ hfile
  rcases halg with h | h <;> subst h <;>
    simp [fetchSecretORprivateKey, hstats, downgradeAlg]

/-- Witness for C1: with an empty filesystem and the salt set, resolving
RS256 at a missing path yields the salt and HS256. -/
theorem fetchSecretORprivateKey_asymmetric_fallback_witness :
    (Alg.RS256 = .RS256 ∨ Alg.RS256 = .RS384) ∧
    ¬ (fsEmpty.pathExists "/nope.pem" = true ∧
        fsEmpty.isFile "/nope.pem" = true) ∧
    (fetchSecretORprivateKey fsEmpty envSaltOnly .RS256 "/nope.pem" =
        (saltFallback envSaltOnly, downgradeAlg .RS256) ∧
      (Alg.RS256 = .RS256 → downgradeAlg .RS256 = .HS256) ∧
      (Alg.RS256 = .RS384 → downgradeAlg .RS256 = .HS384)) :=
  ⟨Or.inl rfl, by simp [fsEmpty],
    fetchSecretORprivateKey_asymmetric_fallback fsEmpty envSaltOnly .RS256
      "/nope.pem" (Or.inl rfl) (by simp [fsEmpty])⟩

/-- C2: for every symmetric algorithm (HS256 or HS384) and every key string,
the key resolver returns exactly the input key with the same algorithm, and
its result does not depend on the filesystem at all (no filesystem access is
observable). -/
theorem fetchSecretORprivateKey_symmetric_identity
    (fs fs₂ : FileSys) (env : EnvMap) (algorithm : Alg) (key : String)
    (halg : algorithm = .HS256 ∨ algorithm = .HS384) :
    fetchSecretORprivateKey fs env algorithm key = (.str key, algorithm) ∧
    fetchSecretORprivateKey fs env algorithm key =
      fetchSecretORprivateKey fs₂ env algorithm key := by
  rcases halg with h | h <;> subst h <;>
    simp [fetchSecretORprivateKey]

/-- Witness for C2: HS384 with two different filesystems returns the input
key unchanged either way. -/
theorem fetchSecretORprivateKey_symmetric_identity_witness :
    (Alg.HS384 = .HS256 ∨ Alg.HS384 = .HS384) ∧
    (fetchSecretORprivateKey fsEmpty envSaltOnly .HS384 "topsecret" =
        (.str "topsecret", .HS384) ∧
      fetchSecretORprivateKey fsEmpty envSaltOnly .HS384 "topsecret" =
        fetchSecretORprivateKey fsOneFile envSaltOnly .HS384 "topsecret") :=
  ⟨Or.inr rfl,
    fetchSecretORprivateKey_symmetric_identity fsEmpty fsOneFile envSaltOnly
      .HS384 "topsecret" (Or.inr rfl)⟩

/-- C9: for every input string, `fetchJWKPublicKey` returns the empty-string
sentinel exactly when the URL constructor fails on it, and when construction
succeeds it returns the key-provider closure (never a string). -/
theorem fetchJWKPublicKey_sentinel_iff
    (urlCtorSucceeds : String → Bool) (url : String) :
    (fetchJWKPublicKey urlCtorSucceeds url = .str "" ↔
      urlCtorSucceeds url = false) ∧
    (urlCtorSucceeds url = true →
      fetchJWKPublicKey urlCtorSucceeds url =
        .provider url 50 (60 * 60 * 1000)) := by
  cases h : urlCtorSucceeds url <;>
    simp [fetchJWKPublicKey, stringIsAValidUrl, h]

/-- Witness for C9: with an always-failing URL constructor the sentinel
equivalence holds at a concrete string. -/
theorem fetchJWKPublicKey_sentinel_iff_witness :
    (fetchJWKPublicKey urlNever "notaurl" = .str "" ↔
      urlNever "notaurl" = false) ∧
    (urlNever "notaurl" = true →
      fetchJWKPublicKey urlNever "notaurl" =
        .provider "notaurl" 50 (60 * 60 * 1000)) :=
  fetchJWKPublicKey_sentinel_iff urlNever "notaurl"

/-- C3: for every invocation of the token verifier whose request carries a
missing or empty `Authorization` header, the controller writes
"Invalid authorization" into the configured payload key, sets the response
status to 401, and never invokes the continuation. -/
theorem authenticateTokenController_missing_header
    (env : EnvMap) (urlCtorSucceeds : String → Bool)
    (decode : String → Option Token) (i : VerifierInputs) (ctx : AuthCtx)
    (hauth : ctx.authorization = none ∨ ctx.authorization = some "") :
    (authenticateTokenController env urlCtorSucceeds decode (some i)
        ctx).payload i.responseKey = some "Invalid authorization" ∧
    (authenticateTokenController env urlCtorSucceeds decode (some i)
        ctx).status = some 401 ∧
    (authenticateTokenController env urlCtorSucceeds decode (some i)
        ctx).nextCalled = false := by
  rcases hauth with h | h <;>
    simp [authenticateTokenController, h, invalidAuthOutcome, updateMap]

/-- Witness for C3: a request with no `Authorization` header yields the
invalid-authorization write, status 401, and no continuation call. -/
theorem authenticateTokenController_missing_header_witness :
    ((none : Option String) = none ∨ (none : Option String) = some "") ∧
    ((authenticateTokenController envSaltOnly urlNever decodeDemo
        (some viDemo) ⟨payloadEmpty, none, none⟩).payload
        viDemo.responseKey = some "Invalid authorization" ∧
      (authenticateTokenController envSaltOnly urlNever decodeDemo
        (some viDemo) ⟨payloadEmpty, none, none⟩).status = some 401 ∧
      (authenticateTokenController envSaltOnly urlNever decodeDemo
        (some viDemo) ⟨payloadEmpty, none, none⟩).nextCalled = false) :=
  ⟨Or.inl rfl,
    authenticateTokenController_missing_header envSaltOnly urlNever
      decodeDemo viDemo ⟨payloadEmpty, none, none⟩ (Or.inl rfl)⟩

/-- C4: on every invocation of the token verifier that reaches
verification, a verification failure writes the error message string into
the configured payload key, sets status 401, and does not invoke the
continuation; the decoded claims are written and the continuation invoked
only on success; and in particular a token decoded under an algorithm
different from the single configured one is rejected with status 401 and no
continuation call. -/
theorem authenticateTokenController_verify_dispatch
    (env : EnvMap) (urlCtorSucceeds : String → Bool)
    (decode : String → Option Token) (i : VerifierInputs) (ctx : AuthCtx)
    (auth tok : String)
    (hauth : ctx.authorization = some auth) (hne : auth ≠ "")
    (htok : (jsSplitSpace auth)[1]? = some tok) (htne : tok ≠ "") :
    (∀ e, JWTverify decode tok (resolveVerifierSecret env urlCtorSucceeds i)
        [i.algorithm] = .error e →
      (authenticateTokenController env urlCtorSucceeds decode (some i)
          ctx).payload i.responseKey = some e ∧
      (authenticateTokenController env urlCtorSucceeds decode (some i)
          ctx).status = some 401 ∧
      (authenticateTokenController env urlCtorSucceeds decode (some i)
          ctx).nextCalled = false) ∧
    (∀ c, JWTverify decode tok (resolveVerifierSecret env urlCtorSucceeds i)
        [i.algorithm] = .ok c →
      (authenticateTokenController env urlCtorSucceeds decode (some i)
          ctx).payload i.responseKey = some c ∧
      (authenticateTokenController env urlCtorSucceeds decode (some i)
          ctx).nextCalled = true) ∧
    (∀ t, decode tok = some t → t.alg ≠ i.algorithm →
      (authenticateTokenController env urlCtorSucceeds decode (some i)
          ctx).status = some 401 ∧
      (authenticateTokenController env urlCtorSucceeds decode (some i)
          ctx).nextCalled = false) := by
  refine ⟨fun e he => ?_, fun c hc => ?_, fun t ht halg => ?_⟩
  · simp [authenticateTokenController, hauth, hne, htok, htne, he,
      updateMap]
  · simp [authenticateTokenController, hauth, hne, htok, htne, hc,
      updateMap]
  · have he : JWTverify decode tok
        (resolveVerifierSecret env urlCtorSucceeds i) [i.algorithm] =
        .error "invalid algorithm" := by
      simp [JWTverify, ht, halg]
    simp [authenticateTokenController, hauth, hne, htok, htne, he]

/-- Witness for C4: the header "Bearer tok384" carries a token decoded
under HS384 while the step is configured for HS256, so verification fails
with "invalid algorithm", which is written with status 401 and no
continuation call. -/
theorem authenticateTokenController_verify_dispatch_witness :
    (⟨payloadEmpty, some "Bearer tok384", none⟩ : AuthCtx).authorization =
        some "Bearer tok384" ∧
    "Bearer tok384" ≠ "" ∧
    (jsSplitSpace "Bearer tok384")[1]? = some "tok384" ∧
    "tok384" ≠ "" ∧
    JWTverify decodeDemo "tok384"
        (resolveVerifierSecret envSaltOnly urlNever viDemo)
        [viDemo.algorithm] = .error "invalid algorithm" ∧
    ((authenticateTokenController envSaltOnly urlNever decodeDemo
        (some viDemo) ⟨payloadEmpty, some "Bearer tok384", none⟩).payload
        viDemo.responseKey = some "invalid algorithm" ∧
      (authenticateTokenController envSaltOnly urlNever decodeDemo
        (some viDemo) ⟨payloadEmpty, some "Bearer tok384", none⟩).status =
        some 401 ∧
      (authenticateTokenController envSaltOnly urlNever decodeDemo
        (some viDemo)
          ⟨payloadEmpty, some "Bearer tok384", none⟩).nextCalled = false) :=
  ⟨rfl, by decide, by decide, by decide, rfl,
    (authenticateTokenController_verify_dispatch envSaltOnly urlNever
        decodeDemo viDemo ⟨payloadEmpty, some "Bearer tok384", none⟩
        "Bearer tok384" "tok384" rfl (by decide) (by decide)
        (by decide)).1 "invalid algorithm" rfl⟩

/-- C10: for every non-empty `Authorization` header the outcome of the verifier
depends only on the second space-separated segment of the header (so a
"Basic"- or any-scheme header is processed exactly as a "Bearer" one and
the scheme word is never checked), and a non-empty header with no space
(hence no second segment) yields the 401 invalid-authorization outcome. -/
theorem authenticateTokenController_scheme_irrelevant
    (env : EnvMap) (urlCtorSucceeds : String → Bool)
    (decode : String → Option Token) (i : VerifierInputs)
    (payload : String → Option String) (status : Option Nat)
    (h₁ h₂ : String) (hne₁ : h₁ ≠ "") (hne₂ : h₂ ≠ "")
    (hseg : (jsSplitSpace h₁)[1]? = (jsSplitSpace h₂)[1]?) :
    authenticateTokenController env urlCtorSucceeds decode (some i)
        ⟨payload, some h₁, status⟩ =
      authenticateTokenController env urlCtorSucceeds decode (some i)
        ⟨payload, some h₂, status⟩ ∧
    ((jsSplitSpace h₁)[1]? = none →
      authenticateTokenController env urlCtorSucceeds decode (some i)
          ⟨payload, some h₁, status⟩ =
        invalidAuthOutcome i ⟨payload, some h₁, status⟩) := by
  constructor
  · simp only [authenticateTokenController, hne₁, hne₂, if_neg, hseg,
      invalidAuthOutcome]
  · intro hnone
    simp [authenticateTokenController, hne₁, hnone]

/-- Witness for C10: "Basic xyz" and "Bearer xyz" produce identical
outcomes, and the space-free header "justonetoken" yields the
invalid-authorization outcome. -/
theorem authenticateTokenController_scheme_irrelevant_witness :
    ("Basic xyz" ≠ "" ∧ "Bearer xyz" ≠ "" ∧
      (jsSplitSpace "Basic xyz")[1]? = (jsSplitSpace "Bearer xyz")[1]? ∧
      authenticateTokenController envSaltOnly urlNever decodeDemo
          (some viDemo) ⟨payloadEmpty, some "Basic xyz", none⟩ =
        authenticateTokenController envSaltOnly urlNever decodeDemo
          (some viDemo) ⟨payloadEmpty, some "Bearer xyz", none⟩) ∧
    ("justonetoken" ≠ "" ∧ (jsSplitSpace "justonetoken")[1]? = none ∧
      authenticateTokenController envSaltOnly urlNever decodeDemo
          (some viDemo) ⟨payloadEmpty, some "justonetoken", none⟩ =
        invalidAuthOutcome viDemo
          ⟨payloadEmpty, some "justonetoken", none⟩) :=
  ⟨⟨by decide, by decide, by decide,
      (authenticateTokenController_scheme_irrelevant envSaltOnly urlNever
          decodeDemo viDemo payloadEmpty none "Basic xyz" "Bearer xyz"
          (by decide) (by decide) (by decide)).1⟩,
    ⟨by decide, by decide,
      (authenticateTokenController_scheme_irrelevant envSaltOnly urlNever
          decodeDemo viDemo payloadEmpty none "justonetoken" "justonetoken"
          (by decide) (by decide) rfl).2 (by decide)⟩⟩

/-- C5: for every invocation of the token signer with defined inputs, the
signed token string is written into the configured response key and the
continuation is invoked: the signer has no error branch of its own. -/
theorem signJWTController_writes_token_and_continues
    (fs : FileSys) (env : EnvMap)
    (jwtSign : JsVal → KeyMaterial → String → Alg → String)
    (i : SignInputs) (payload : String → Option JsVal) :
    (signJWTController fs env jwtSign (some i) payload).payload
        i.responseKey =
      some (.str (jwtSign
        (jsOrDefault (payload i.payloadKey) (.obj "emptyObject"))
        (fetchSecretORprivateKey fs env i.algorithm (signKeyRef env i)).1
        i.expiresIn
        (fetchSecretORprivateKey fs env i.algorithm
          (signKeyRef env i)).2)) ∧
    (signJWTController fs env jwtSign (some i) payload).nextCalled = true := by
  constructor
  · simp [signJWTController, updateMap]
  · simp [signJWTController]

/-- Counterexample for C6: a concrete invocation that sets credentials on
the resolved OAuth client and then fails to obtain an access token returns
with the refresh token still stored in the credentials of the client, so the
credentials are not cleared on the error path. -/
theorem getUserDetails_error_keeps_credentials_cex :
    (getUserDetails udWorldFailingToken (some udInputsDemo)).creds =
      some (.set (some "rt-1")) ∧
    (getUserDetails udWorldFailingToken (some udInputsDemo)).creds ≠
      some .empty ∧
    (getUserDetails udWorldFailingToken (some udInputsDemo)).msg =
      some (.failedUserDetails "invalid_grant") := by
  refine ⟨rfl, ?_, rfl⟩
  intro h
  simp [getUserDetails, udWorldFailingToken, udInputsDemo, jsTruthyStr,
    udUserRefreshToken] at h

/-- C6 as amended: on every invocation of `getUserDetails` that sets
credentials on the named OAuth client, the credentials are cleared after
the user-info call on the success path only; on the error path the stored
refresh token remains on the shared client object and the continuation is
not invoked. -/
theorem getUserDetails_credentials_success_only
    (w : UDWorld) (i : UDInputs) (cfg : UDConfig)
    (hclient : jsTruthyStr i.client = true)
    (hmgr : w.hasConfigManager = true)
    (hcfg : w.config (i.client.getD "") = some cfg)
    (hoauth : cfg.hasOAuthClient = true) :
    ((getUserDetails w (some i)).nextCalled = true →
      (getUserDetails w (some i)).creds = some .empty) ∧
    ((getUserDetails w (some i)).nextCalled = false →
      (getUserDetails w (some i)).creds =
        some (.set (udUserRefreshToken w i))) ∧
    (∀ tk u, w.getAccessToken (udUserRefreshToken w i) = .ok (some tk) →
      w.fetchUserInfo tk = .ok u →
      (getUserDetails w (some i)).creds = some .empty ∧
      (getUserDetails w (some i)).nextCalled = true) := by
  have hrun : getUserDetails w (some i) =
      match w.getAccessToken (udUserRefreshToken w i) with
      | .throws err =>
        { msg := some (.failedUserDetails err)
          creds := some (.set (udUserRefreshToken w i)), nextCalled := false }
      | .ok none =>
        { msg := some (.failedUserDetails "Failed to get access token.")
          creds := some (.set (udUserRefreshToken w i)), nextCalled := false }
      | .ok (some tk) =>
        match w.fetchUserInfo tk with
        | .error err =>
          { msg := some (.failedUserDetails err)
            creds := some (.set (udUserRefreshToken w i)), nextCalled := false }
        | .ok userInfo =>
          { msg := some (.success userInfo), creds := some .empty
            nextCalled := true } := by
    simp [getUserDetails, hclient, hmgr, hcfg, hoauth]
  refine ⟨?_, ?_, ?_⟩
  · intro hnext
    rw [hrun] at hnext ⊢
    cases hg : w.getAccessToken (udUserRefreshToken w i) with
    | throws err => simp [hg] at hnext
    | ok tkOpt =>
      cases tkOpt with
      | none => simp [hg] at hnext
      | some tk =>
        cases hu : w.fetchUserInfo tk with
        | error e => simp [hg, hu] at hnext
        | ok u => simp [hg, hu]
  · intro hnext
    rw [hrun] at hnext ⊢
    cases hg : w.getAccessToken (udUserRefreshToken w i) with
    | throws err => simp [hg]
    | ok tkOpt =>
      cases tkOpt with
      | none => simp [hg]
      | some tk =>
        cases hu : w.fetchUserInfo tk with
        | error e => simp [hg, hu]
        | ok u => simp [hg, hu] at hnext
  · intro tk u hg hu
    rw [hrun]
    simp [hg, hu]

/-- Witness for the amended C6: in the happy world the credentials come
back cleared with the continuation invoked. -/
theorem getUserDetails_credentials_success_only_witness :
    jsTruthyStr udInputsDemo.client = true ∧
    udWorldHappy.hasConfigManager = true ∧
    udWorldHappy.config (udInputsDemo.client.getD "") =
      some { hasOAuthClient := true, initialCreds := .empty } ∧
    ((getUserDetails udWorldHappy (some udInputsDemo)).nextCalled = true →
      (getUserDetails udWorldHappy (some udInputsDemo)).creds =
        some .empty) :=
  ⟨by decide, rfl, rfl,
    (getUserDetails_credentials_success_only udWorldHappy udInputsDemo
      { hasOAuthClient := true, initialCreds := .empty }
      (by decide) rfl rfl rfl).1⟩

/-- C7 is a code bug: with the client id absent (and the secret and
redirect URI present) the controller does write a structured error with
statusCode 400 and skip the continuation, but the per-field missing flag
of the absent `clientId` is computed with lodash `isElement` and is
therefore `false`, not `true` as the specification requires. -/
theorem generateGoogleAuthUrl_missing_flag_wrong :
    generateGoogleAuthUrl envSaltOnly (some gaInputsNoClientId) =
      { msg := some (.missingCredentials 400 false false false)
        nextCalled := false } ∧
    gaInputsNoClientId.clientId = none := by
  constructor
  · rfl
  · rfl

/-- C8: for every invocation of the JWKS publisher with defined inputs
whose resolved public-key path does not name an existing file, the
controller writes "key not found" into the configured payload key, sets
status 404, and does not invoke the continuation. -/
theorem jwtJWKSController_key_not_found
    (env : EnvMap) (fs : FileSys) (pem2jwk : String → Except String String)
    (i : JWKSInputs) (payload : String → Option JWKSVal)
    (status0 : Option Nat) (p : String)
    (hpath : resolvedPublicKeyPath env i = some p)
    (hmiss : fs.pathExists p = false) :
    (jwtJWKSController env fs pem2jwk (some i) payload status0).payload
        i.responseKey = some (.message "key not found") ∧
    (jwtJWKSController env fs pem2jwk (some i) payload status0).status =
      some 404 ∧
    (jwtJWKSController env fs pem2jwk (some i) payload status0).nextCalled =
      false := by
  simp [jwtJWKSController, hpath, hmiss, updateMap]

/-- Witness for C8: a literal path on an empty filesystem resolves, is
absent, and yields the 404 key-not-found outcome. -/
theorem jwtJWKSController_key_not_found_witness :
    resolvedPublicKeyPath envSaltOnly jwksInputsDemo =
      some "/keys/pub.pem" ∧
    fsEmpty.pathExists "/keys/pub.pem" = false ∧
    ((jwtJWKSController envSaltOnly fsEmpty (fun s => .ok s)
        (some jwksInputsDemo) jwksPayloadEmpty none).payload
        jwksInputsDemo.responseKey = some (.message "key not found") ∧
      (jwtJWKSController envSaltOnly fsEmpty (fun s => .ok s)
        (some jwksInputsDemo) jwksPayloadEmpty none).status = some 404 ∧
      (jwtJWKSController envSaltOnly fsEmpty (fun s => .ok s)
        (some jwksInputsDemo) jwksPayloadEmpty none).nextCalled = false) :=
  ⟨rfl, rfl,
    jwtJWKSController_key_not_found envSaltOnly fsEmpty (fun s => .ok s)
      jwksInputsDemo jwksPayloadEmpty none "/keys/pub.pem" rfl rfl⟩

end EcoflowAuth
